import Mathlib

/-!
Shallow embedding of the run-log manager (the `Logger` class of this
repository: `initPaths`, `startRun`, `rotateRun`, `appendToRun`,
`appendToErrorLog`, `getInstance`).

The filesystem is modelled as an association list from paths to file
contents.  Every filesystem primitive consumes one position of a failure
oracle (`Env.fail`): when the oracle marks the call as failing, the
primitive raises an exception (`Except.error`) without touching the
files, which models an arbitrary I/O error thrown by the corresponding
`fs.*Sync` call.  Exceptions carry the state reached so far, exactly as
thrown JavaScript exceptions leave `this` and the disk in their current
state; `try { } catch { }` blocks are modelled by `tryCatchMock`.
`new Date().toISOString()` is modelled by a clock oracle (`Env.now`)
consumed once per call.  Every successful mutating or inspecting
filesystem call is additionally recorded in an event trace, so that
statements such as "that delete is never performed" are expressible.
-/

namespace RunLog

/-- The mutable fields of the `Logger` singleton: `logDir`,
`runLogPath` (nullable) and `errorLogPath`. -/
structure LoggerState where
  logDir : String
  runLogPath : Option String
  errorLogPath : String
deriving DecidableEq

/-- One successfully executed filesystem call, recorded for observation. -/
inductive Event where
  | fsExists (p : String)
  | mkdir (p : String)
  | unlink (p : String)
  | rename (src dst : String)
  | readF (p : String)
  | writeF (p : String)
  | appendF (p : String)
deriving DecidableEq

/-- The whole observable state: the files on disk (path, contents),
the number of filesystem primitive calls made so far (`tick`), the
number of `Date` calls made so far (`time`), the event trace, and the
logger's own fields. -/
structure World where
  files : List (String × String)
  tick : Nat
  time : Nat
  trace : List Event
  lg : LoggerState
deriving DecidableEq

/-- The environment: `fail n` says whether the n-th filesystem
primitive call throws, `now n` is the timestamp returned by the n-th
`Date` call. -/
structure Env where
  fail : Nat → Bool
  now : Nat → String

/-- Computations of the embedded code: state plus exceptions, where an
exception carries the state reached at the point of the throw. -/
def M (α : Type) := Env → World → World × Except Unit α

def M.pure {α : Type} (a : α) : M α := fun _ w => (w, Except.ok a)

def M.bind {α β : Type} (m : M α) (f : α → M β) : M β := fun env w =>
  match m env w with
  | (w', Except.ok a) => f a env w'
  | (w', Except.error e) => (w', Except.error e)

instance : Monad M where
  pure := M.pure
  bind := M.bind

/-- `try { m } catch { h }`: exceptions of `m` are absorbed and the
handler runs from the state at the point of the throw. -/
def tryCatchMock {α : Type} (m : M α) (h : M α) : M α := fun env w =>
  match m env w with
  | (w', Except.ok a) => (w', Except.ok a)
  | (w', Except.error _) => h env w'

/-- Look a path up in the file table. -/
def lookupFile : List (String × String) → String → Option String
  | [], _ => none
  | (q, c) :: rest, p => if q = p then some c else lookupFile rest p

/-- Create or overwrite a file in the table. -/
def setFile : List (String × String) → String → String → List (String × String)
  | [], p, c => [(p, c)]
  | (q, d) :: rest, p, c => if q = p then (p, c) :: rest else (q, d) :: setFile rest p c

/-- Remove a file from the table. -/
def eraseFile : List (String × String) → String → List (String × String)
  | [], _ => []
  | (q, d) :: rest, p => if q = p then rest else (q, d) :: eraseFile rest p

/-- Record a successful filesystem call in the trace. -/
def record (e : Event) (w : World) : World := { w with trace := w.trace ++ [e] }

/-- `fs.existsSync`. -/
def fsExistsSync (p : String) : M Bool := fun env w =>
  let w1 := { w with tick := w.tick + 1 }
  if env.fail w.tick then (w1, Except.error ())
  else (record (Event.fsExists p) w1, Except.ok (lookupFile w.files p).isSome)

/-- `fs.mkdirSync` (directories are not tracked in the file table). -/
def fsMkdirSync (p : String) : M Unit := fun env w =>
  let w1 := { w with tick := w.tick + 1 }
  if env.fail w.tick then (w1, Except.error ())
  else (record (Event.mkdir p) w1, Except.ok ())

/-- `fs.unlinkSync`: throws when the file does not exist. -/
def fsUnlinkSync (p : String) : M Unit := fun env w =>
  let w1 := { w with tick := w.tick + 1 }
  if env.fail w.tick then (w1, Except.error ())
  else
    match lookupFile w.files p with
    | none => (w1, Except.error ())
    | some _ => (record (Event.unlink p) { w1 with files := eraseFile w.files p }, Except.ok ())

/-- `fs.renameSync`: throws when the source does not exist, overwrites
the destination. -/
def fsRenameSync (src dst : String) : M Unit := fun env w =>
  let w1 := { w with tick := w.tick + 1 }
  if env.fail w.tick then (w1, Except.error ())
  else
    match lookupFile w.files src with
    | none => (w1, Except.error ())
    | some c =>
        (record (Event.rename src dst)
          { w1 with files := eraseFile (setFile w.files dst c) src }, Except.ok ())

/-- `fs.readFileSync`: throws when the file does not exist. -/
def fsReadFileSync (p : String) : M String := fun env w =>
  let w1 := { w with tick := w.tick + 1 }
  if env.fail w.tick then (w1, Except.error ())
  else
    match lookupFile w.files p with
    | none => (w1, Except.error ())
    | some c => (record (Event.readF p) w1, Except.ok c)

/-- `fs.writeFileSync`: creates or overwrites. -/
def fsWriteFileSync (p data : String) : M Unit := fun env w =>
  let w1 := { w with tick := w.tick + 1 }
  if env.fail w.tick then (w1, Except.error ())
  else (record (Event.writeF p) { w1 with files := setFile w.files p data }, Except.ok ())

/-- `fs.appendFileSync`: creates the file when missing. -/
def fsAppendFileSync (p data : String) : M Unit := fun env w =>
  let w1 := { w with tick := w.tick + 1 }
  if env.fail w.tick then (w1, Except.error ())
  else
    (record (Event.appendF p)
      { w1 with files := setFile w.files p ((lookupFile w.files p).getD "" ++ data) },
     Except.ok ())

/-- `new Date().toISOString()`: never throws, consumes the clock. -/
def dateNow : M String := fun env w =>
  ({ w with time := w.time + 1 }, Except.ok (env.now w.time))

/-- Read the logger's fields (`this`). -/
def getLg : M LoggerState := fun _ w => (w, Except.ok w.lg)

/-- Mutate the logger's fields (`this`). -/
def modifyLg (f : LoggerState → LoggerState) : M Unit := fun _ w =>
  ({ w with lg := f w.lg }, Except.ok ())

/-- JavaScript truthiness of a nullable string: null and the empty
string are falsy. -/
def falsyOpt : Option String → Bool
  | none => true
  | some s => s == ""

/-- `path.resolve(__dirname, '..', 'logging')`. -/
def logDirName : String := "logging"

/-- `path.join`. -/
def pjoin (d f : String) : String := d ++ "/" ++ f

/-- The header line written at the start of every run. -/
def runHeader (t : String) : String := "=== Test run started: " ++ t ++ " ===\n"

/-- The best-effort directory creation of `initPaths`: check whether
the log directory exists, create it if not, and swallow any error. -/
def ensureDir : M Unit :=
  tryCatchMock
    (fsExistsSync logDirName >>= fun ex =>
      if !ex then fsMkdirSync logDirName else pure ())
    (pure ())

/-- `Logger.initPaths`: resolve the log directory once (best-effort
creation, errors swallowed) and set the error-log path. -/
def initPaths : M Unit :=
  getLg >>= fun lg =>
  (if lg.logDir == "" then
    modifyLg (fun s => { s with logDir := logDirName }) >>= fun _ =>
    ensureDir
  else pure ()) >>= fun _ =>
  getLg >>= fun lg2 =>
  modifyLg (fun s => { s with errorLogPath := pjoin lg2.logDir "test_error.log" })

/-- Rotation step `prev1 -> prev2` with its copy-then-delete fallback
(`// Move prev1 -> prev2 (overwrite)`). -/
def movePrev1ToPrev2 (prev1 prev2 : String) : M Unit :=
  tryCatchMock
    (fsExistsSync prev2 >>= fun p2Ex =>
      (if p2Ex then fsUnlinkSync prev2 else pure ()) >>= fun _ =>
      fsRenameSync prev1 prev2)
    (tryCatchMock
      (fsReadFileSync prev1 >>= fun data =>
        fsWriteFileSync prev2 data >>= fun _ =>
        fsUnlinkSync prev1)
      (pure ()))

/-- Rotation step `current -> prev1` with its copy-then-delete fallback
(`// Move current -> prev1`). -/
def moveCurrentToPrev1 (current prev1 : String) : M Unit :=
  tryCatchMock
    (fsExistsSync prev1 >>= fun p1Ex =>
      (if p1Ex then fsUnlinkSync prev1 else pure ()) >>= fun _ =>
      fsRenameSync current prev1)
    (tryCatchMock
      (fsReadFileSync current >>= fun data =>
        fsWriteFileSync prev1 data >>= fun _ =>
        fsUnlinkSync current)
      (pure ()))

/-- The guarded rotation of `startRun`: `if (fs.existsSync(current) &&
!forceNew) { if (fs.existsSync(prev1)) { ... } ... }`. -/
def rotateIfNeeded (current prev1 prev2 : String) (forceNew : Bool) : M Unit :=
  fsExistsSync current >>= fun curEx =>
  if curEx && !forceNew then
    fsExistsSync prev1 >>= fun p1Ex =>
    (if p1Ex then movePrev1ToPrev2 prev1 prev2 else pure ()) >>= fun _ =>
    moveCurrentToPrev1 current prev1
  else pure ()

/-- The header write of `startRun` with its catch: on failure the run
path falls back to the error log and `startRun` returns early.  The
returned Bool says whether the write succeeded. -/
def writeHeader (current : String) : M Bool :=
  tryCatchMock
    (dateNow >>= fun t =>
      fsWriteFileSync current (runHeader t) >>= fun _ =>
      pure true)
    (modifyLg (fun s => { s with runLogPath := some s.errorLogPath }) >>= fun _ =>
      pure false)

/-- `Logger.startRun(forceNew)`. -/
def startRun (forceNew : Bool) : M Unit :=
  initPaths >>= fun _ =>
  getLg >>= fun lg =>
  let current := pjoin lg.logDir "test_run.log"
  let prev1 := pjoin lg.logDir "test_run.1.log"
  let prev2 := pjoin lg.logDir "test_run.2.log"
  tryCatchMock
    (rotateIfNeeded current prev1 prev2 forceNew >>= fun _ =>
      writeHeader current >>= fun ok =>
      if ok then modifyLg (fun s => { s with runLogPath := some current }) else pure ())
    (modifyLg (fun s => { s with runLogPath := some s.errorLogPath }))

/-- `Logger.rotateRun()`. -/
def rotateRun : M Unit := startRun true

/-- `Logger.appendToRun(message)`. -/
def appendToRun (message : String) : M Unit :=
  tryCatchMock
    (getLg >>= fun lg =>
      (if falsyOpt lg.runLogPath then startRun false else pure ()) >>= fun _ =>
      getLg >>= fun lg2 =>
      match lg2.runLogPath with
      | some p => if p == "" then pure () else fsAppendFileSync p (message ++ "\n")
      | none => pure ())
    (pure ())

/-- `Logger.appendToErrorLog(message)`. -/
def appendToErrorLog (message : String) : M Unit :=
  tryCatchMock
    (getLg >>= fun lg =>
      (if lg.errorLogPath == "" then initPaths else pure ()) >>= fun _ =>
      getLg >>= fun lg2 =>
      fsAppendFileSync lg2.errorLogPath (message ++ "\n"))
    (pure ())

/-- The fields of a freshly constructed `Logger`. -/
def freshLogger : LoggerState := { logDir := "", runLogPath := none, errorLogPath := "" }

/-- The initialization performed by `Logger.getInstance()` on first
use: construct, `initPaths`, then auto-start a run with errors
swallowed. -/
def getInstanceInit : M Unit :=
  initPaths >>= fun _ =>
  tryCatchMock (startRun false) (pure ())

/-- The failure-free environment with clock `ts`. -/
def okEnv (ts : Nat → String) : Env := { fail := fun _ => false, now := ts }

/-- The world after `n` plain `startRun()` calls in the failure-free
environment, starting from an empty log directory and a fresh logger. -/
def runN (ts : Nat → String) : Nat → World
  | 0 => { files := [], tick := 0, time := 0, trace := [], lg := freshLogger }
  | n + 1 => (startRun false (okEnv ts) (runN ts n)).1

/-- Shorthand for the three rotated run-log paths and the error path. -/
def currentPath : String := "logging/test_run.log"

def prev1Path : String := "logging/test_run.1.log"

def prev2Path : String := "logging/test_run.2.log"

def errorPath : String := "logging/test_error.log"

/-- An initialized logger state with the given active run path. -/
def lgInit (rp : Option String) : LoggerState :=
  { logDir := "logging", runLogPath := rp, errorLogPath := errorPath }

/-- Logger fields right after `initPaths`, before any run is started. -/
def pathF0 : LoggerState :=
  { logDir := "logging", runLogPath := none, errorLogPath := errorPath }

/-- Logger fields after a successful `startRun`. -/
def pathF1 : LoggerState :=
  { logDir := "logging", runLogPath := some currentPath, errorLogPath := errorPath }

/-- Logger fields after a degraded `startRun` (fallback to the error log). -/
def pathF2 : LoggerState :=
  { logDir := "logging", runLogPath := some errorPath, errorLogPath := errorPath }

/-- Having a value rather than an exception as outcome, for every
environment and every starting state. -/
def retOk {α : Type} (m : M α) : Prop := ∀ env w, ∃ a, (m env w).2 = Except.ok a

/-- Leaving the logger's own fields untouched, for every environment
and every starting state. -/
def presLg {α : Type} (m : M α) : Prop := ∀ env w, ((m env w).1).lg = w.lg

/-- Only ever appending to the event trace. -/
def traceExt {α : Type} (m : M α) : Prop := ∀ env w, ∃ d, ((m env w).1).trace = w.trace ++ d

/-- Leaving the contents of file `p` untouched, for every environment
and every starting state. -/
def presFile {α : Type} (p : String) (m : M α) : Prop :=
  ∀ env w, lookupFile ((m env w).1).files p = lookupFile w.files p

/-- The public operations of the component, for reachability. -/
inductive Op where
  | start (forceNew : Bool)
  | rot
  | appR (msg : String)
  | appE (msg : String)

/-- Run one public operation under an environment. -/
def applyOp : Op → Env → World → World
  | Op.start fn, env, w => (startRun fn env w).1
  | Op.rot, env, w => (rotateRun env w).1
  | Op.appR m, env, w => (appendToRun m env w).1
  | Op.appE m, env, w => (appendToErrorLog m env w).1

/-- States reachable from a fresh `getInstance` initialization on an
arbitrary pre-existing directory, under arbitrary environments. -/
inductive Reachable : World → Prop where
  | init (env : Env) (files : List (String × String)) (k t : Nat) (tr : List Event) :
      Reachable ((getInstanceInit env
        { files := files, tick := k, time := t, trace := tr, lg := freshLogger }).1)
  | step (w : World) (op : Op) (env : Env) : Reachable w → Reachable (applyOp op env w)

/-- Closed form of the failure-free run sequence: from the fourth
state on, exactly the three rotated files are on disk, holding the
three most recent headers. -/
theorem runN_form (ts : Nat → String) : ∀ n : Nat, ∃ k tr,
    runN ts (n + 3) =
      { files := [(prev2Path, runHeader (ts n)), (prev1Path, runHeader (ts (n + 1))),
                  (currentPath, runHeader (ts (n + 2)))],
        tick := k, time := n + 3, trace := tr,
        lg := { logDir := "logging", runLogPath := some currentPath, errorLogPath := errorPath } }
  | 0 => ⟨16, _, rfl⟩
  | n + 1 => by
      obtain ⟨k, tr, h⟩ := runN_form ts n
      have h2 : runN ts (n + 1 + 3) = (startRun false (okEnv ts) (runN ts (n + 3))).1 := rfl
      rw [h2, h]
      exact ⟨_, _, rfl⟩

/-- C1: starting from an empty log directory, in the failure-free
environment, after `n + 3` plain `startRun()` calls exactly the three
run-log files `test_run.log`, `test_run.1.log`, `test_run.2.log`
exist; and after any number of calls the directory holds one of four
explicit file lists, never another file and never more than 3 files. -/
theorem C1_bounded_history (ts : Nat → String) (n : Nat) :
    ((runN ts (n + 3)).files.map Prod.fst = [prev2Path, prev1Path, currentPath]) ∧
    (∀ m : Nat,
      ((runN ts m).files.map Prod.fst = [] ∨
       (runN ts m).files.map Prod.fst = [currentPath] ∨
       (runN ts m).files.map Prod.fst = [prev1Path, currentPath] ∨
       (runN ts m).files.map Prod.fst = [prev2Path, prev1Path, currentPath]) ∧
      (runN ts m).files.length ≤ 3) := by
  have key : ∀ m : Nat,
      (runN ts (m + 3)).files.map Prod.fst = [prev2Path, prev1Path, currentPath] := by
    intro m
    obtain ⟨k, tr, h⟩ := runN_form ts m
    rw [h]
    rfl
  refine ⟨key n, fun m => ?_⟩
  match m with
  | 0 => exact ⟨Or.inl rfl, by norm_num [runN]⟩
  | 1 =>
      refine ⟨Or.inr (Or.inl rfl), ?_⟩
      rw [show (runN ts 1).files = [(currentPath, runHeader (ts 0))] from rfl]
      norm_num
  | 2 =>
      refine ⟨Or.inr (Or.inr (Or.inl rfl)), ?_⟩
      rw [show (runN ts 2).files
            = [(prev1Path, runHeader (ts 0)), (currentPath, runHeader (ts 1))] from rfl]
      norm_num
  | m + 3 =>
      obtain ⟨k, tr, h⟩ := runN_form ts m
      refine ⟨Or.inr (Or.inr (Or.inr (key m))), ?_⟩
      rw [h]
      norm_num

/-- C2: after three failure-free `startRun()` calls from an empty
directory with header timestamps `ts 0`, `ts 1`, `ts 2`, the current
file holds the newest header, `test_run.1.log` the middle one and
`test_run.2.log` the oldest, each of the exact form
`=== Test run started: <timestamp> ===` followed by a newline. -/
theorem C2_rotation_order (ts : Nat → String) :
    lookupFile (runN ts 3).files currentPath
      = some ("=== Test run started: " ++ ts 2 ++ " ===\n") ∧
    lookupFile (runN ts 3).files prev1Path
      = some ("=== Test run started: " ++ ts 1 ++ " ===\n") ∧
    lookupFile (runN ts 3).files prev2Path
      = some ("=== Test run started: " ++ ts 0 ++ " ===\n") ∧
    (∀ t : String, runHeader t = "=== Test run started: " ++ t ++ " ===\n") := by
  obtain ⟨k, tr, h⟩ := runN_form ts 0
  norm_num at h
  rw [h]
  exact ⟨rfl, rfl, rfl, fun _ => rfl⟩

theorem retOk_pure {α : Type} (a : α) : retOk (pure a : M α) := fun _ _ => ⟨a, rfl⟩

theorem retOk_bind {α β : Type} {m : M α} {f : α → M β}
    (hm : retOk m) (hf : ∀ a, retOk (f a)) : retOk (m >>= f) := by
  intro env w
  obtain ⟨a, ha⟩ := hm env w
  rcases hw : m env w with ⟨w', r⟩
  rw [hw] at ha
  simp at ha
  subst ha
  have hb : (m >>= f) env w = f a env w' := by
    show M.bind m f env w = _
    unfold M.bind
    rw [hw]
  rw [hb]
  exact hf a env w'

theorem retOk_tryCatch {α : Type} {m h : M α} (hh : retOk h) : retOk (tryCatchMock m h) := by
  intro env w
  unfold tryCatchMock
  rcases hw : m env w with ⟨w', r⟩
  cases r with
  | ok a => exact ⟨a, rfl⟩
  | error e => exact hh env w'

theorem retOk_ite {α : Type} (c : Prop) [Decidable c] {m1 m2 : M α}
    (h1 : retOk m1) (h2 : retOk m2) : retOk (if c then m1 else m2) := by
  split
  · exact h1
  · exact h2

theorem retOk_getLg : retOk getLg := fun _ w => ⟨w.lg, rfl⟩

theorem retOk_modifyLg (f : LoggerState → LoggerState) : retOk (modifyLg f) :=
  fun _ _ => ⟨(), rfl⟩

theorem retOk_ensureDir : retOk ensureDir := by
  unfold ensureDir
  exact retOk_tryCatch (retOk_pure ())

theorem retOk_initPaths : retOk initPaths := by
  unfold initPaths
  refine retOk_bind retOk_getLg (fun lg => ?_)
  refine retOk_bind ?_ (fun _ => retOk_bind retOk_getLg (fun _ => retOk_modifyLg _))
  apply retOk_ite
  · exact retOk_bind (retOk_modifyLg _) (fun _ => retOk_ensureDir)
  · exact retOk_pure ()

theorem retOk_startRun (fn : Bool) : retOk (startRun fn) := by
  unfold startRun
  refine retOk_bind retOk_initPaths (fun _ => ?_)
  refine retOk_bind retOk_getLg (fun lg => ?_)
  exact retOk_tryCatch (retOk_modifyLg _)

theorem retOk_rotateRun : retOk rotateRun := retOk_startRun true

theorem retOk_appendToRun (msg : String) : retOk (appendToRun msg) := by
  unfold appendToRun
  exact retOk_tryCatch (retOk_pure ())

theorem retOk_appendToErrorLog (msg : String) : retOk (appendToErrorLog msg) := by
  unfold appendToErrorLog
  exact retOk_tryCatch (retOk_pure ())

theorem bind_def {α β : Type} (m : M α) (f : α → M β) : m >>= f = M.bind m f := rfl

theorem pure_def {α : Type} (a : α) : (pure a : M α) = M.pure a := rfl

theorem pjoin_current : pjoin "logging" "test_run.log" = currentPath := rfl

theorem pjoin_prev1 : pjoin "logging" "test_run.1.log" = prev1Path := rfl

theorem pjoin_prev2 : pjoin "logging" "test_run.2.log" = prev2Path := rfl

theorem pjoin_error : pjoin "logging" "test_error.log" = errorPath := rfl

theorem logging_ne_empty : (("logging" : String) == "") = false := rfl

theorem lookupFile_setFile_self (l : List (String × String)) (p c : String) :
    lookupFile (setFile l p c) p = some c := by
  induction l with
  | nil => simp [setFile, lookupFile]
  | cons hd tl ih =>
      rcases hd with ⟨q, d⟩
      by_cases h : q = p
      · subst h; simp [setFile, lookupFile]
      · simp [setFile, lookupFile, h, ih]

theorem lookupFile_setFile_ne (l : List (String × String)) (p q c : String) (h : q ≠ p) :
    lookupFile (setFile l p c) q = lookupFile l q := by
  induction l with
  | nil => simp [setFile, lookupFile, Ne.symm h]
  | cons hd tl ih =>
      rcases hd with ⟨r, d⟩
      by_cases hr : r = p
      · subst hr
        simp [setFile, lookupFile, Ne.symm h]
      · simp [setFile, lookupFile, hr, ih]

theorem lookupFile_eraseFile_ne (l : List (String × String)) (p q : String) (h : q ≠ p) :
    lookupFile (eraseFile l p) q = lookupFile l q := by
  induction l with
  | nil => simp [eraseFile]
  | cons hd tl ih =>
      rcases hd with ⟨r, d⟩
      by_cases hr : r = p
      · subst hr
        simp [eraseFile, lookupFile, Ne.symm h]
      · simp [eraseFile, lookupFile, hr, ih]

/-- C3: for every message, every starting state and every behaviour of
the filesystem (any pattern of failing calls), `startRun`, `rotateRun`,
`appendToRun` and `appendToErrorLog` return normally; no exception ever
reaches the caller. -/
theorem C3_never_throws (env : Env) (w : World) (fn : Bool) (msg : String) :
    (startRun fn env w).2 = Except.ok () ∧
    (rotateRun env w).2 = Except.ok () ∧
    (appendToRun msg env w).2 = Except.ok () ∧
    (appendToErrorLog msg env w).2 = Except.ok () := by
  refine ⟨?_, ?_, ?_, ?_⟩
  · obtain ⟨a, ha⟩ := retOk_startRun fn env w; exact ha
  · obtain ⟨a, ha⟩ := retOk_rotateRun env w; exact ha
  · obtain ⟨a, ha⟩ := retOk_appendToRun msg env w; exact ha
  · obtain ⟨a, ha⟩ := retOk_appendToErrorLog msg env w; exact ha

/-- Effect of `startRun(true)` on an initialized logger in the
failure-free environment: the only filesystem mutation is one write of
a fresh header to the current file. -/
theorem startRun_forceNew_eval (ts : Nat → String) (files : List (String × String)) (k t : Nat)
    (tr : List Event) (rp : Option String) (ep : String) :
    (startRun true (okEnv ts)
        { files := files, tick := k, time := t, trace := tr,
          lg := { logDir := "logging", runLogPath := rp, errorLogPath := ep } }).1 =
      { files := setFile files currentPath (runHeader (ts t)), tick := k + 2, time := t + 1,
        trace := tr ++ [Event.fsExists currentPath, Event.writeF currentPath],
        lg := { logDir := "logging", runLogPath := some currentPath,
                errorLogPath := errorPath } } := by
  simp only [startRun, initPaths, writeHeader, rotateIfNeeded, bind_def, pure_def, M.bind,
    M.pure, tryCatchMock, fsExistsSync, fsWriteFileSync, dateNow, getLg, modifyLg, record,
    okEnv, pjoin_current, pjoin_prev1, pjoin_prev2, pjoin_error, logging_ne_empty,
    Bool.and_false, Bool.not_true, Bool.false_eq_true, if_false, if_true,
    List.append_assoc, List.cons_append, List.nil_append, List.singleton_append,
    Nat.add_assoc, Nat.reduceAdd]

/-- C4: for every pre-existing state of the log directory,
`startRun(forceNew = true)` (equivalently `rotateRun()`) leaves
`test_run.1.log` and `test_run.2.log` untouched, performs no rotation
step at all (its only filesystem actions are one existence check and
one write of the current file), and replaces `test_run.log` with a
fresh single header line. -/
theorem C4_force_new_frame (ts : Nat → String) (files : List (String × String)) (k t : Nat)
    (tr : List Event) (rp : Option String) (ep : String) :
    lookupFile ((startRun true (okEnv ts)
        { files := files, tick := k, time := t, trace := tr,
          lg := { logDir := "logging", runLogPath := rp, errorLogPath := ep } }).1).files prev1Path
      = lookupFile files prev1Path ∧
    lookupFile ((startRun true (okEnv ts)
        { files := files, tick := k, time := t, trace := tr,
          lg := { logDir := "logging", runLogPath := rp, errorLogPath := ep } }).1).files prev2Path
      = lookupFile files prev2Path ∧
    lookupFile ((startRun true (okEnv ts)
        { files := files, tick := k, time := t, trace := tr,
          lg := { logDir := "logging", runLogPath := rp, errorLogPath := ep } }).1).files currentPath
      = some (runHeader (ts t)) ∧
    ((startRun true (okEnv ts)
        { files := files, tick := k, time := t, trace := tr,
          lg := { logDir := "logging", runLogPath := rp, errorLogPath := ep } }).1).trace
      = tr ++ [Event.fsExists currentPath, Event.writeF currentPath] ∧
    (∀ (env : Env) (w : World), rotateRun env w = startRun true env w) := by
  rw [startRun_forceNew_eval]
  refine ⟨?_, ?_, ?_, rfl, fun _ _ => rfl⟩
  · exact lookupFile_setFile_ne _ _ _ _ (by decide)
  · exact lookupFile_setFile_ne _ _ _ _ (by decide)
  · exact lookupFile_setFile_self _ _ _

theorem lookupFile_eq_none_of_not_mem (l : List (String × String)) (p : String)
    (h : p ∉ l.map Prod.fst) : lookupFile l p = none := by
  induction l with
  | nil => rfl
  | cons hd tl ih =>
      rcases hd with ⟨q, d⟩
      simp only [List.map_cons, List.mem_cons, not_or] at h
      simp [lookupFile, Ne.symm h.1, ih h.2]

theorem eraseFile_keys_sublist (l : List (String × String)) (p : String) :
    List.Sublist ((eraseFile l p).map Prod.fst) (l.map Prod.fst) := by
  induction l with
  | nil => simp [eraseFile]
  | cons hd tl ih =>
      rcases hd with ⟨q, d⟩
      by_cases hq : q = p
      · simp only [eraseFile, if_pos hq, List.map_cons]
        exact List.sublist_cons_self _ _
      · simp only [eraseFile, if_neg hq, List.map_cons]
        exact ih.cons₂ q

theorem nodupKeys_eraseFile (l : List (String × String)) (p : String)
    (h : (l.map Prod.fst).Nodup) : ((eraseFile l p).map Prod.fst).Nodup :=
  h.sublist (eraseFile_keys_sublist l p)

theorem keys_setFile (l : List (String × String)) (p c : String) :
    (setFile l p c).map Prod.fst
      = if p ∈ l.map Prod.fst then l.map Prod.fst else l.map Prod.fst ++ [p] := by
  induction l with
  | nil => simp [setFile]
  | cons hd tl ih =>
      rcases hd with ⟨q, d⟩
      by_cases hq : q = p
      · subst hq
        simp [setFile]
      · simp only [setFile, if_neg hq, List.map_cons, ih]
        by_cases hp : p ∈ tl.map Prod.fst
        · simp [hp, Ne.symm hq]
        · simp [hp, Ne.symm hq]

theorem nodupKeys_setFile (l : List (String × String)) (p c : String)
    (h : (l.map Prod.fst).Nodup) : ((setFile l p c).map Prod.fst).Nodup := by
  rw [keys_setFile]
  by_cases hp : p ∈ l.map Prod.fst
  · simpa [hp] using h
  · simp [hp, List.nodup_append, h]

theorem lookupFile_eraseFile_self (l : List (String × String)) (p : String)
    (h : (l.map Prod.fst).Nodup) : lookupFile (eraseFile l p) p = none := by
  induction l with
  | nil => rfl
  | cons hd tl ih =>
      rcases hd with ⟨q, d⟩
      simp only [List.map_cons, List.nodup_cons] at h
      by_cases hq : q = p
      · subst hq
        simp only [eraseFile, if_pos rfl]
        exact lookupFile_eq_none_of_not_mem tl q h.1
      · simp only [eraseFile, if_neg hq, lookupFile, if_neg hq]
        exact ih h.2

/-- C6 counterexample: with a current file and a two-runs-ago file but
no one-run-ago file, a failure-free rotation never deletes
`test_run.2.log`; the pre-existing file survives with its old content,
refuting the claim that step 1 always deletes the oldest slot. -/
theorem C6_oldest_slot_cex :
    lookupFile ((startRun false (okEnv (fun _ => "T"))
        { files := [(currentPath, "C"), (prev2Path, "OLD")], tick := 0, time := 0, trace := [],
          lg := lgInit (some currentPath) }).1).files prev2Path = some "OLD" ∧
    Event.unlink prev2Path ∉ ((startRun false (okEnv (fun _ => "T"))
        { files := [(currentPath, "C"), (prev2Path, "OLD")], tick := 0, time := 0, trace := [],
          lg := lgInit (some currentPath) }).1).trace := by
  decide

/-- C6 amended: in a failure-free rotation in which the current file,
`test_run.1.log` and `test_run.2.log` all exist, the two-runs-ago file
is deleted as the first mutation, before any rename, and afterwards
holds the previous run's content; the full ordered trace of filesystem
actions is exactly the listed one. -/
theorem C6_oldest_slot_amended (ts : Nat → String) (c d1 d2 : String) (k t : Nat)
    (tr : List Event) (rp : Option String) (ep : String) :
    ((startRun false (okEnv ts)
        { files := [(currentPath, c), (prev1Path, d1), (prev2Path, d2)], tick := k, time := t,
          trace := tr, lg := { logDir := "logging", runLogPath := rp, errorLogPath := ep } }).1).trace
      = tr ++ [Event.fsExists currentPath, Event.fsExists prev1Path, Event.fsExists prev2Path,
               Event.unlink prev2Path, Event.rename prev1Path prev2Path,
               Event.fsExists prev1Path, Event.rename currentPath prev1Path,
               Event.writeF currentPath] ∧
    lookupFile ((startRun false (okEnv ts)
        { files := [(currentPath, c), (prev1Path, d1), (prev2Path, d2)], tick := k, time := t,
          trace := tr, lg := { logDir := "logging", runLogPath := rp, errorLogPath := ep } }).1).files
        prev2Path = some d1 := by
  constructor <;>
  simp only [startRun, initPaths, ensureDir, writeHeader, rotateIfNeeded, movePrev1ToPrev2,
    moveCurrentToPrev1, bind_def, pure_def, M.bind, M.pure, tryCatchMock, fsExistsSync,
    fsWriteFileSync, fsUnlinkSync, fsRenameSync, fsReadFileSync, dateNow, getLg, modifyLg,
    record, okEnv, lookupFile, setFile, eraseFile, currentPath, prev1Path, prev2Path, errorPath,
    pjoin_current, pjoin_prev1, pjoin_prev2, pjoin_error, logging_ne_empty,
    Bool.and_false, Bool.not_true, Bool.false_eq_true, if_false, if_true, Bool.and_true,
    Bool.not_false, Bool.and_self, Bool.true_and, eq_self_iff_true, Bool.true_eq_false,
    Option.isSome_some, Option.isSome_none, String.reduceEq,
    List.append_assoc, List.cons_append, List.nil_append, List.singleton_append,
    Nat.add_assoc, Nat.reduceAdd, reduceIte]

/-- C5 counterexample: when the rename of `test_run.1.log` to
`test_run.2.log` and its copy fallback both fail, the defensive
re-check of the one-run-ago slot does fire: the delete is performed
(the unlink event is in the trace) and the previous run's content "P"
is destroyed, refuting the claim that the delete is never performed. -/
theorem C5_defensive_delete_cex :
    Event.unlink prev1Path ∈ ((startRun false
        { fail := fun n => n == 3 || n == 4, now := fun _ => "T" }
        { files := [(currentPath, "C"), (prev1Path, "P")], tick := 0, time := 0, trace := [],
          lg := lgInit (some currentPath) }).1).trace ∧
    lookupFile ((startRun false
        { fail := fun n => n == 3 || n == 4, now := fun _ => "T" }
        { files := [(currentPath, "C"), (prev1Path, "P")], tick := 0, time := 0, trace := [],
          lg := lgInit (some currentPath) }).1).files prev1Path = some "C" ∧
    ((startRun false
        { fail := fun n => n == 3 || n == 4, now := fun _ => "T" }
        { files := [(currentPath, "C"), (prev1Path, "P")], tick := 0, time := 0, trace := [],
          lg := lgInit (some currentPath) }).1).files.map Prod.snd
      = ["C", "=== Test run started: T ===\n"] := by
  decide

/-- C5 amended: in every execution of `startRun()` in which no
filesystem call fails, the defensive delete of the one-run-ago slot is
never performed: no unlink of `test_run.1.log` appears among the
filesystem actions of the call. -/
theorem C5_defensive_delete_amended (ts : Nat → String) (files : List (String × String))
    (hnd : (files.map Prod.fst).Nodup) (k t : Nat) (tr : List Event)
    (rp : Option String) (ep : String) :
    Event.unlink prev1Path ∉ (((startRun false (okEnv ts)
        { files := files, tick := k, time := t, trace := tr,
          lg := { logDir := "logging", runLogPath := rp, errorLogPath := ep } }).1).trace.drop
          tr.length) := by
  rcases hcur : lookupFile files "logging/test_run.log" with _ | c
  · simp [startRun, initPaths, ensureDir, writeHeader, rotateIfNeeded, movePrev1ToPrev2,
      moveCurrentToPrev1, bind_def, pure_def, M.bind, M.pure, tryCatchMock, fsExistsSync,
      fsWriteFileSync, fsUnlinkSync, fsRenameSync, fsReadFileSync, dateNow, getLg, modifyLg,
      record, okEnv, currentPath, prev1Path, prev2Path, errorPath,
      pjoin_current, pjoin_prev1, pjoin_prev2, pjoin_error, logging_ne_empty, hcur,
      List.drop_left, List.append_assoc, List.cons_append, List.nil_append]
  · rcases hp1 : lookupFile files "logging/test_run.1.log" with _ | d1
    · simp [startRun, initPaths, ensureDir, writeHeader, rotateIfNeeded, movePrev1ToPrev2,
        moveCurrentToPrev1, bind_def, pure_def, M.bind, M.pure, tryCatchMock, fsExistsSync,
        fsWriteFileSync, fsUnlinkSync, fsRenameSync, fsReadFileSync, dateNow, getLg, modifyLg,
        record, okEnv, currentPath, prev1Path, prev2Path, errorPath,
        pjoin_current, pjoin_prev1, pjoin_prev2, pjoin_error, logging_ne_empty, hcur, hp1,
        List.drop_left, List.append_assoc, List.cons_append, List.nil_append]
    · rcases hp2 : lookupFile files "logging/test_run.2.log" with _ | d2
      · have h1 : lookupFile (eraseFile (setFile files "logging/test_run.2.log" d1)
            "logging/test_run.1.log") "logging/test_run.1.log" = none :=
          lookupFile_eraseFile_self _ _ (nodupKeys_setFile _ _ _ hnd)
        have h2 : lookupFile (eraseFile (setFile files "logging/test_run.2.log" d1)
            "logging/test_run.1.log") "logging/test_run.log" = some c := by
          rw [lookupFile_eraseFile_ne _ _ _ (by decide),
            lookupFile_setFile_ne _ _ _ _ (by decide)]
          exact hcur
        simp [startRun, initPaths, ensureDir, writeHeader, rotateIfNeeded, movePrev1ToPrev2,
          moveCurrentToPrev1, bind_def, pure_def, M.bind, M.pure, tryCatchMock, fsExistsSync,
          fsWriteFileSync, fsUnlinkSync, fsRenameSync, fsReadFileSync, dateNow, getLg, modifyLg,
          record, okEnv, currentPath, prev1Path, prev2Path, errorPath,
          pjoin_current, pjoin_prev1, pjoin_prev2, pjoin_error, logging_ne_empty,
          hcur, hp1, hp2, h1, h2,
          List.drop_left, List.append_assoc, List.cons_append, List.nil_append]
      · have h0 : lookupFile (eraseFile files "logging/test_run.2.log")
            "logging/test_run.1.log" = some d1 := by
          rw [lookupFile_eraseFile_ne _ _ _ (by decide)]
          exact hp1
        have h1 : lookupFile (eraseFile (setFile (eraseFile files "logging/test_run.2.log")
            "logging/test_run.2.log" d1) "logging/test_run.1.log") "logging/test_run.1.log"
              = none :=
          lookupFile_eraseFile_self _ _
            (nodupKeys_setFile _ _ _ (nodupKeys_eraseFile _ _ hnd))
        have h2 : lookupFile (eraseFile (setFile (eraseFile files "logging/test_run.2.log")
            "logging/test_run.2.log" d1) "logging/test_run.1.log") "logging/test_run.log"
              = some c := by
          rw [lookupFile_eraseFile_ne _ _ _ (by decide),
            lookupFile_setFile_ne _ _ _ _ (by decide),
            lookupFile_eraseFile_ne _ _ _ (by decide)]
          exact hcur
        simp [startRun, initPaths, ensureDir, writeHeader, rotateIfNeeded, movePrev1ToPrev2,
          moveCurrentToPrev1, bind_def, pure_def, M.bind, M.pure, tryCatchMock, fsExistsSync,
          fsWriteFileSync, fsUnlinkSync, fsRenameSync, fsReadFileSync, dateNow, getLg, modifyLg,
          record, okEnv, currentPath, prev1Path, prev2Path, errorPath,
          pjoin_current, pjoin_prev1, pjoin_prev2, pjoin_error, logging_ne_empty,
          hcur, hp1, hp2, h0, h1, h2,
          List.drop_left, List.append_assoc, List.cons_append, List.nil_append]

/-- C5 witness: a concrete failure-free rotation from a two-file
directory in which the defensive delete indeed never fires. -/
theorem C5_defensive_delete_witness :
    ((([(currentPath, "A"), (prev1Path, "B")] : List (String × String)).map Prod.fst).Nodup ∧
     Event.unlink prev1Path ∉ (((startRun false (okEnv fun _ => "T")
        { files := [(currentPath, "A"), (prev1Path, "B")], tick := 0, time := 0, trace := [],
          lg := { logDir := "logging", runLogPath := none,
                  errorLogPath := "" } }).1).trace.drop ([] : List Event).length)) :=
  ⟨by decide, C5_defensive_delete_amended (fun _ => "T") [(currentPath, "A"), (prev1Path, "B")]
    (by decide) 0 0 [] none ""⟩

theorem presLg_pure {α : Type} (a : α) : presLg (pure a : M α) := fun _ _ => rfl

theorem presLg_bind {α β : Type} {m : M α} {f : α → M β}
    (hm : presLg m) (hf : ∀ a, presLg (f a)) : presLg (m >>= f) := by
  intro env w
  show ((M.bind m f env w).1).lg = w.lg
  unfold M.bind
  rcases hw : m env w with ⟨w', r⟩
  have h1 : w'.lg = w.lg := by
    have hh := hm env w
    rw [hw] at hh
    exact hh
  cases r with
  | ok a =>
      simp only []
      rw [← h1]
      exact hf a env w'
  | error e => exact h1

theorem presLg_tryCatch {α : Type} {m h : M α} (hm : presLg m) (hh : presLg h) :
    presLg (tryCatchMock m h) := by
  intro env w
  unfold tryCatchMock
  rcases hw : m env w with ⟨w', r⟩
  have h1 : w'.lg = w.lg := by
    have hq := hm env w
    rw [hw] at hq
    exact hq
  cases r with
  | ok a => exact h1
  | error e =>
      rw [← h1]
      exact hh env w'

theorem presLg_ite {α : Type} (c : Prop) [Decidable c] {m1 m2 : M α}
    (h1 : presLg m1) (h2 : presLg m2) : presLg (if c then m1 else m2) := by
  split
  · exact h1
  · exact h2

theorem presLg_fsExistsSync (p : String) : presLg (fsExistsSync p) := by
  intro env w
  unfold fsExistsSync record
  split <;> rfl

theorem presLg_fsMkdirSync (p : String) : presLg (fsMkdirSync p) := by
  intro env w
  unfold fsMkdirSync record
  split <;> rfl

theorem presLg_fsUnlinkSync (p : String) : presLg (fsUnlinkSync p) := by
  intro env w
  unfold fsUnlinkSync record
  split
  · rfl
  · rcases lookupFile w.files p with _ | c <;> rfl

theorem presLg_fsRenameSync (src dst : String) : presLg (fsRenameSync src dst) := by
  intro env w
  unfold fsRenameSync record
  split
  · rfl
  · rcases lookupFile w.files src with _ | c <;> rfl

theorem presLg_fsReadFileSync (p : String) : presLg (fsReadFileSync p) := by
  intro env w
  unfold fsReadFileSync record
  split
  · rfl
  · rcases lookupFile w.files p with _ | c <;> rfl

theorem presLg_fsWriteFileSync (p data : String) : presLg (fsWriteFileSync p data) := by
  intro env w
  unfold fsWriteFileSync record
  split <;> rfl

theorem presLg_fsAppendFileSync (p data : String) : presLg (fsAppendFileSync p data) := by
  intro env w
  unfold fsAppendFileSync record
  split <;> rfl

theorem presLg_dateNow : presLg dateNow := fun _ _ => rfl

theorem presLg_getLg : presLg getLg := fun _ _ => rfl

theorem presLg_movePrev1ToPrev2 (p1 p2 : String) : presLg (movePrev1ToPrev2 p1 p2) := by
  unfold movePrev1ToPrev2
  refine presLg_tryCatch ?_ (presLg_tryCatch ?_ (presLg_pure ()))
  · refine presLg_bind (presLg_fsExistsSync _) (fun b => ?_)
    refine presLg_bind ?_ (fun _ => presLg_fsRenameSync _ _)
    apply presLg_ite
    · exact presLg_fsUnlinkSync _
    · exact presLg_pure ()
  · exact presLg_bind (presLg_fsReadFileSync _) (fun d =>
      presLg_bind (presLg_fsWriteFileSync _ _) (fun _ => presLg_fsUnlinkSync _))

theorem presLg_moveCurrentToPrev1 (c p1 : String) : presLg (moveCurrentToPrev1 c p1) := by
  unfold moveCurrentToPrev1
  refine presLg_tryCatch ?_ (presLg_tryCatch ?_ (presLg_pure ()))
  · refine presLg_bind (presLg_fsExistsSync _) (fun b => ?_)
    refine presLg_bind ?_ (fun _ => presLg_fsRenameSync _ _)
    apply presLg_ite
    · exact presLg_fsUnlinkSync _
    · exact presLg_pure ()
  · exact presLg_bind (presLg_fsReadFileSync _) (fun d =>
      presLg_bind (presLg_fsWriteFileSync _ _) (fun _ => presLg_fsUnlinkSync _))

theorem presLg_rotateIfNeeded (c p1 p2 : String) (fn : Bool) :
    presLg (rotateIfNeeded c p1 p2 fn) := by
  unfold rotateIfNeeded
  refine presLg_bind (presLg_fsExistsSync _) (fun b => ?_)
  apply presLg_ite
  · refine presLg_bind (presLg_fsExistsSync _) (fun b2 => ?_)
    refine presLg_bind ?_ (fun _ => presLg_moveCurrentToPrev1 _ _)
    apply presLg_ite
    · exact presLg_movePrev1ToPrev2 _ _
    · exact presLg_pure ()
  · exact presLg_pure ()

theorem presLg_ensureDir : presLg ensureDir := by
  unfold ensureDir
  refine presLg_tryCatch ?_ (presLg_pure ())
  refine presLg_bind (presLg_fsExistsSync _) (fun b => ?_)
  apply presLg_ite
  · exact presLg_fsMkdirSync _
  · exact presLg_pure ()

theorem traceExt_pure {α : Type} (a : α) : traceExt (pure a : M α) :=
  fun _ w => ⟨[], by simp [pure_def, M.pure]⟩

theorem traceExt_bind {α β : Type} {m : M α} {f : α → M β}
    (hm : traceExt m) (hf : ∀ a, traceExt (f a)) : traceExt (m >>= f) := by
  intro env w
  show ∃ d, ((M.bind m f env w).1).trace = w.trace ++ d
  unfold M.bind
  rcases hw : m env w with ⟨w', r⟩
  obtain ⟨d1, h1⟩ : ∃ d, w'.trace = w.trace ++ d := by
    obtain ⟨d, hd⟩ := hm env w
    rw [hw] at hd
    exact ⟨d, hd⟩
  cases r with
  | ok a =>
      obtain ⟨d2, h2⟩ := hf a env w'
      exact ⟨d1 ++ d2, by simp [h2, h1, List.append_assoc]⟩
  | error e => exact ⟨d1, h1⟩

theorem traceExt_tryCatch {α : Type} {m h : M α} (hm : traceExt m) (hh : traceExt h) :
    traceExt (tryCatchMock m h) := by
  intro env w
  unfold tryCatchMock
  rcases hw : m env w with ⟨w', r⟩
  obtain ⟨d1, h1⟩ : ∃ d, w'.trace = w.trace ++ d := by
    obtain ⟨d, hd⟩ := hm env w
    rw [hw] at hd
    exact ⟨d, hd⟩
  cases r with
  | ok a => exact ⟨d1, h1⟩
  | error e =>
      obtain ⟨d2, h2⟩ := hh env w'
      exact ⟨d1 ++ d2, by simp [h2, h1, List.append_assoc]⟩

theorem traceExt_ite {α : Type} (c : Prop) [Decidable c] {m1 m2 : M α}
    (h1 : traceExt m1) (h2 : traceExt m2) : traceExt (if c then m1 else m2) := by
  split
  · exact h1
  · exact h2

theorem traceExt_fsExistsSync (p : String) : traceExt (fsExistsSync p) := by
  intro env w
  unfold fsExistsSync record
  split
  · exact ⟨[], by simp⟩
  · exact ⟨[Event.fsExists p], rfl⟩

theorem traceExt_fsMkdirSync (p : String) : traceExt (fsMkdirSync p) := by
  intro env w
  unfold fsMkdirSync record
  split
  · exact ⟨[], by simp⟩
  · exact ⟨[Event.mkdir p], rfl⟩

theorem traceExt_fsUnlinkSync (p : String) : traceExt (fsUnlinkSync p) := by
  intro env w
  unfold fsUnlinkSync record
  split
  · exact ⟨[], by simp⟩
  · rcases lookupFile w.files p with _ | c
    · exact ⟨[], by simp⟩
    · exact ⟨[Event.unlink p], rfl⟩

theorem traceExt_fsRenameSync (src dst : String) : traceExt (fsRenameSync src dst) := by
  intro env w
  unfold fsRenameSync record
  split
  · exact ⟨[], by simp⟩
  · rcases lookupFile w.files src with _ | c
    · exact ⟨[], by simp⟩
    · exact ⟨[Event.rename src dst], rfl⟩

theorem traceExt_fsReadFileSync (p : String) : traceExt (fsReadFileSync p) := by
  intro env w
  unfold fsReadFileSync record
  split
  · exact ⟨[], by simp⟩
  · rcases lookupFile w.files p with _ | c
    · exact ⟨[], by simp⟩
    · exact ⟨[Event.readF p], rfl⟩

theorem traceExt_fsWriteFileSync (p data : String) : traceExt (fsWriteFileSync p data) := by
  intro env w
  unfold fsWriteFileSync record
  split
  · exact ⟨[], by simp⟩
  · exact ⟨[Event.writeF p], rfl⟩

theorem traceExt_fsAppendFileSync (p data : String) : traceExt (fsAppendFileSync p data) := by
  intro env w
  unfold fsAppendFileSync record
  split
  · exact ⟨[], by simp⟩
  · exact ⟨[Event.appendF p], rfl⟩

theorem traceExt_dateNow : traceExt dateNow := fun _ w => ⟨[], by simp [dateNow]⟩

theorem traceExt_getLg : traceExt getLg := fun _ w => ⟨[], by simp [getLg]⟩

theorem traceExt_modifyLg (f : LoggerState → LoggerState) : traceExt (modifyLg f) :=
  fun _ w => ⟨[], by simp [modifyLg]⟩

theorem traceExt_movePrev1ToPrev2 (p1 p2 : String) : traceExt (movePrev1ToPrev2 p1 p2) := by
  unfold movePrev1ToPrev2
  refine traceExt_tryCatch ?_ (traceExt_tryCatch ?_ (traceExt_pure ()))
  · refine traceExt_bind (traceExt_fsExistsSync _) (fun b => ?_)
    refine traceExt_bind ?_ (fun _ => traceExt_fsRenameSync _ _)
    apply traceExt_ite
    · exact traceExt_fsUnlinkSync _
    · exact traceExt_pure ()
  · exact traceExt_bind (traceExt_fsReadFileSync _) (fun d =>
      traceExt_bind (traceExt_fsWriteFileSync _ _) (fun _ => traceExt_fsUnlinkSync _))

theorem traceExt_moveCurrentToPrev1 (c p1 : String) : traceExt (moveCurrentToPrev1 c p1) := by
  unfold moveCurrentToPrev1
  refine traceExt_tryCatch ?_ (traceExt_tryCatch ?_ (traceExt_pure ()))
  · refine traceExt_bind (traceExt_fsExistsSync _) (fun b => ?_)
    refine traceExt_bind ?_ (fun _ => traceExt_fsRenameSync _ _)
    apply traceExt_ite
    · exact traceExt_fsUnlinkSync _
    · exact traceExt_pure ()
  · exact traceExt_bind (traceExt_fsReadFileSync _) (fun d =>
      traceExt_bind (traceExt_fsWriteFileSync _ _) (fun _ => traceExt_fsUnlinkSync _))

theorem traceExt_rotateIfNeeded (c p1 p2 : String) (fn : Bool) :
    traceExt (rotateIfNeeded c p1 p2 fn) := by
  unfold rotateIfNeeded
  refine traceExt_bind (traceExt_fsExistsSync _) (fun b => ?_)
  apply traceExt_ite
  · refine traceExt_bind (traceExt_fsExistsSync _) (fun b2 => ?_)
    refine traceExt_bind ?_ (fun _ => traceExt_moveCurrentToPrev1 _ _)
    apply traceExt_ite
    · exact traceExt_movePrev1ToPrev2 _ _
    · exact traceExt_pure ()
  · exact traceExt_pure ()

/-- Outcome of `startRun` on an initialized logger, under every
environment: either the run path is the current file and its header
write is among the performed filesystem actions, or the run path has
fallen back to the error log. -/
theorem startRun_char (fn : Bool) (env : Env) (files : List (String × String)) (k t : Nat)
    (tr : List Event) (rp : Option String) (ep : String) :
    ((((startRun fn env
        { files := files, tick := k, time := t, trace := tr,
          lg := { logDir := "logging", runLogPath := rp, errorLogPath := ep } }).1).lg
        = { logDir := "logging", runLogPath := some currentPath, errorLogPath := errorPath }) ∧
      Event.writeF currentPath ∈
        (((startRun fn env
          { files := files, tick := k, time := t, trace := tr,
            lg := { logDir := "logging", runLogPath := rp, errorLogPath := ep } }).1).trace.drop
          tr.length)) ∨
    (((startRun fn env
        { files := files, tick := k, time := t, trace := tr,
          lg := { logDir := "logging", runLogPath := rp, errorLogPath := ep } }).1).lg
        = { logDir := "logging", runLogPath := some errorPath, errorLogPath := errorPath }) := by
  have h0 : startRun fn env
        { files := files, tick := k, time := t, trace := tr,
          lg := { logDir := "logging", runLogPath := rp, errorLogPath := ep } } =
      tryCatchMock
        (rotateIfNeeded currentPath prev1Path prev2Path fn >>= fun _ =>
          writeHeader currentPath >>= fun ok =>
          if ok then modifyLg (fun s => { s with runLogPath := some currentPath }) else pure ())
        (modifyLg (fun s => { s with runLogPath := some s.errorLogPath }))
        env
        { files := files, tick := k, time := t, trace := tr,
          lg := { logDir := "logging", runLogPath := rp, errorLogPath := errorPath } } := rfl
  rw [h0]
  rcases hrot : rotateIfNeeded currentPath prev1Path prev2Path fn env
      { files := files, tick := k, time := t, trace := tr,
        lg := { logDir := "logging", runLogPath := rp, errorLogPath := errorPath } }
    with ⟨w2, r⟩
  have hlg2 : w2.lg = { logDir := "logging", runLogPath := rp, errorLogPath := errorPath } := by
    have hp := presLg_rotateIfNeeded currentPath prev1Path prev2Path fn env
      { files := files, tick := k, time := t, trace := tr,
        lg := { logDir := "logging", runLogPath := rp, errorLogPath := errorPath } }
    rw [hrot] at hp
    exact hp
  obtain ⟨d2, htr2⟩ : ∃ d, w2.trace = tr ++ d := by
    have hp := traceExt_rotateIfNeeded currentPath prev1Path prev2Path fn env
      { files := files, tick := k, time := t, trace := tr,
        lg := { logDir := "logging", runLogPath := rp, errorLogPath := errorPath } }
    rw [hrot] at hp
    exact hp
  simp only [tryCatchMock, bind_def, M.bind, hrot]
  cases r with
  | error e =>
      right
      simp [modifyLg, hlg2]
  | ok a =>
      simp only [writeHeader, tryCatchMock, bind_def, M.bind, dateNow, fsWriteFileSync, record]
      by_cases hf : env.fail w2.tick
      · right
        simp only [hf, if_true, M.pure, modifyLg, pure_def]
        simp [M.pure, hlg2]
      · left
        simp only [hf, if_false, M.pure, modifyLg, pure_def]
        refine ⟨by simp [modifyLg, hlg2], ?_⟩
        simp [modifyLg, htr2, List.append_assoc, List.drop_left]

/-- Effect of `appendToRun` in the failure-free environment when an
active nonempty run path is set: the message plus a newline is
appended to that file. -/
theorem appendToRun_some_eval (ts : Nat → String) (msg : String) (w : World) (p : String)
    (h : w.lg.runLogPath = some p) (hp : (p == "") = false) :
    appendToRun msg (okEnv ts) w =
      ({ w with
          files := setFile w.files p ((lookupFile w.files p).getD "" ++ (msg ++ "\n")),
          tick := w.tick + 1, trace := w.trace ++ [Event.appendF p] }, Except.ok ()) := by
  have hp' : p ≠ "" := by simpa using hp
  simp [appendToRun, tryCatchMock, bind_def, M.bind, getLg, falsyOpt, h, hp, hp',
    fsAppendFileSync, record, okEnv, M.pure, pure_def]

/-- C7: for every environment and every initialized pre-state, if the
header write to `test_run.log` is not among the filesystem actions
that `startRun` performed (it failed, or an earlier failure aborted
the procedure), then the active run path has been set to the
error-log path, and a subsequent `appendToRun` with a working
filesystem appends its message to `test_error.log` and leaves the
logger state unchanged, so every later append lands there too. -/
theorem C7_degraded_fallback (env : Env) (ts : Nat → String) (files : List (String × String))
    (k t : Nat) (tr : List Event) (rp : Option String) (ep : String) (msg : String)
    (hw : Event.writeF currentPath ∉
      (((startRun false env
        { files := files, tick := k, time := t, trace := tr,
          lg := { logDir := "logging", runLogPath := rp, errorLogPath := ep } }).1).trace.drop
        tr.length)) :
    ((startRun false env
        { files := files, tick := k, time := t, trace := tr,
          lg := { logDir := "logging", runLogPath := rp, errorLogPath := ep } }).1).lg.runLogPath
      = some errorPath ∧
    lookupFile ((appendToRun msg (okEnv ts)
        ((startRun false env
          { files := files, tick := k, time := t, trace := tr,
            lg := { logDir := "logging", runLogPath := rp, errorLogPath := ep } }).1)).1).files
        errorPath
      = some ((lookupFile ((startRun false env
          { files := files, tick := k, time := t, trace := tr,
            lg := { logDir := "logging", runLogPath := rp, errorLogPath := ep } }).1).files
            errorPath).getD "" ++ (msg ++ "\n")) ∧
    ((appendToRun msg (okEnv ts)
        ((startRun false env
          { files := files, tick := k, time := t, trace := tr,
            lg := { logDir := "logging", runLogPath := rp, errorLogPath := ep } }).1)).1).lg
      = ((startRun false env
          { files := files, tick := k, time := t, trace := tr,
            lg := { logDir := "logging", runLogPath := rp, errorLogPath := ep } }).1).lg := by
  rcases startRun_char false env files k t tr rp ep with ⟨h1, h2⟩ | h1
  · exact absurd h2 hw
  · have hrl : ((startRun false env
        { files := files, tick := k, time := t, trace := tr,
          lg := { logDir := "logging", runLogPath := rp, errorLogPath := ep } }).1).lg.runLogPath
        = some errorPath := by rw [h1]
    have happ := appendToRun_some_eval ts msg
      ((startRun false env
        { files := files, tick := k, time := t, trace := tr,
          lg := { logDir := "logging", runLogPath := rp, errorLogPath := ep } }).1)
      errorPath hrl (by decide)
    refine ⟨hrl, ?_, ?_⟩
    · rw [happ]
      exact lookupFile_setFile_self _ _ _
    · rw [happ]

/-- C7 witness: an empty directory where the only failing call is the
header write; the run path degrades to the error log and the next
append lands in `test_error.log`. -/
theorem C7_degraded_fallback_witness :
    (Event.writeF currentPath ∉
      (((startRun false { fail := fun n => n == 1, now := fun _ => "T" }
        { files := [], tick := 0, time := 0, trace := [],
          lg := { logDir := "logging", runLogPath := none,
                  errorLogPath := "" } }).1).trace.drop ([] : List Event).length)) ∧
    ((startRun false { fail := fun n => n == 1, now := fun _ => "T" }
        { files := [], tick := 0, time := 0, trace := [],
          lg := { logDir := "logging", runLogPath := none,
                  errorLogPath := "" } }).1).lg.runLogPath = some errorPath ∧
    lookupFile ((appendToRun "m" (okEnv fun _ => "U")
        ((startRun false { fail := fun n => n == 1, now := fun _ => "T" }
          { files := [], tick := 0, time := 0, trace := [],
            lg := { logDir := "logging", runLogPath := none,
                    errorLogPath := "" } }).1)).1).files errorPath
      = some ((lookupFile ((startRun false { fail := fun n => n == 1, now := fun _ => "T" }
          { files := [], tick := 0, time := 0, trace := [],
            lg := { logDir := "logging", runLogPath := none,
                    errorLogPath := "" } }).1).files errorPath).getD "" ++ ("m" ++ "\n")) ∧
    ((appendToRun "m" (okEnv fun _ => "U")
        ((startRun false { fail := fun n => n == 1, now := fun _ => "T" }
          { files := [], tick := 0, time := 0, trace := [],
            lg := { logDir := "logging", runLogPath := none,
                    errorLogPath := "" } }).1)).1).lg
      = ((startRun false { fail := fun n => n == 1, now := fun _ => "T" }
          { files := [], tick := 0, time := 0, trace := [],
            lg := { logDir := "logging", runLogPath := none,
                    errorLogPath := "" } }).1).lg :=
  ⟨by decide,
    C7_degraded_fallback { fail := fun n => n == 1, now := fun _ => "T" } (fun _ => "U")
      [] 0 0 [] none "" "m" (by decide)⟩

theorem appendToErrorLog_lg (env : Env) (msg : String) (w : World)
    (h : (w.lg.errorLogPath == "") = false) :
    ((appendToErrorLog msg env w).1).lg = w.lg := by
  simp only [appendToErrorLog, tryCatchMock, bind_def, M.bind, getLg, h, Bool.false_eq_true,
    if_false, M.pure, pure_def]
  rcases ha : fsAppendFileSync w.lg.errorLogPath (msg ++ "\n") env w with ⟨w3, r3⟩
  have hp : w3.lg = w.lg := by
    have hq := presLg_fsAppendFileSync w.lg.errorLogPath (msg ++ "\n") env w
    rw [ha] at hq
    exact hq
  cases r3 <;> simp [hp]

theorem appendToRun_lg_some (env : Env) (msg : String) (w : World) (p : String)
    (h : w.lg.runLogPath = some p) (hp : (p == "") = false) :
    ((appendToRun msg env w).1).lg = w.lg := by
  have hp' : p ≠ "" := by simpa using hp
  simp only [appendToRun, tryCatchMock, bind_def, M.bind, getLg, falsyOpt, h, hp,
    Bool.false_eq_true, if_false, M.pure, pure_def, hp', ite_false]
  rcases ha : fsAppendFileSync p (msg ++ "\n") env w with ⟨w3, r3⟩
  have hq : w3.lg = w.lg := by
    have hr := presLg_fsAppendFileSync p (msg ++ "\n") env w
    rw [ha] at hr
    exact hr
  cases r3 <;> simp [hq]

theorem initPaths_lg (env : Env) (w : World) :
    ((initPaths env w).1).lg =
      { logDir := if w.lg.logDir == "" then logDirName else w.lg.logDir,
        runLogPath := w.lg.runLogPath,
        errorLogPath := pjoin (if w.lg.logDir == "" then logDirName else w.lg.logDir)
          "test_error.log" } := by
  by_cases h : (w.lg.logDir == "") = true
  · simp only [initPaths, bind_def, M.bind, getLg, h, if_true, modifyLg]
    split
    next w3 a heq =>
      have hq : w3.lg =
          { logDir := logDirName, runLogPath := w.lg.runLogPath,
            errorLogPath := w.lg.errorLogPath } := by
        have hpe := presLg_ensureDir env
          { w with lg := { w.lg with logDir := logDirName } }
        rw [heq] at hpe
        exact hpe
      simp [modifyLg, getLg, M.bind, hq, h]
    next w3 e heq =>
      obtain ⟨a, ha⟩ := retOk_ensureDir env
        { w with lg := { w.lg with logDir := logDirName } }
      rw [heq] at ha
      simp at ha
  · have h' : ¬ w.lg.logDir = "" := by simpa using h
    simp [initPaths, bind_def, M.bind, getLg, modifyLg, pure_def, M.pure, h, h']

theorem startRun_lg_cases (fn : Bool) (env : Env) (w : World)
    (h : w.lg = pathF1 ∨ w.lg = pathF2 ∨ w.lg = pathF0) :
    ((startRun fn env w).1).lg = pathF1 ∨ ((startRun fn env w).1).lg = pathF2 := by
  rcases w with ⟨f, k, t, tr, lg⟩
  rcases h with h1 | h1 | h1 <;> (simp only at h1; subst h1)
  · exact (startRun_char fn env f k t tr (some currentPath) errorPath).imp And.left id
  · exact (startRun_char fn env f k t tr (some errorPath) errorPath).imp And.left id
  · exact (startRun_char fn env f k t tr none errorPath).imp And.left id

/-- Invariant of all reachable states: the logger's fields are those of
a normal run (`pathF1`) or of a degraded run (`pathF2`). -/
theorem reachable_lg (w : World) (h : Reachable w) : w.lg = pathF1 ∨ w.lg = pathF2 := by
  induction h with
  | init env files k t tr =>
      simp only [getInstanceInit, bind_def, M.bind]
      split
      next w1 a heq =>
        have hlg1 : w1.lg = pathF0 := by
          have hi := initPaths_lg env
            { files := files, tick := k, time := t, trace := tr, lg := freshLogger }
          rw [heq] at hi
          simpa [freshLogger, logDirName, pjoin_error, pathF0] using hi
        rcases hs : startRun false env w1 with ⟨w2, r2⟩
        have hr2 : r2 = Except.ok () := by
          obtain ⟨a2, ha2⟩ := retOk_startRun false env w1
          rw [hs] at ha2
          cases a2
          exact ha2
        subst hr2
        have hres : ((startRun false env w1).1).lg = pathF1 ∨
            ((startRun false env w1).1).lg = pathF2 :=
          startRun_lg_cases false env w1 (Or.inr (Or.inr hlg1))
        rw [hs] at hres
        simpa [tryCatchMock, hs] using hres
      next w1 e heq =>
        obtain ⟨a, ha⟩ := retOk_initPaths env
          { files := files, tick := k, time := t, trace := tr, lg := freshLogger }
        rw [heq] at ha
        simp at ha
  | step w op env hw ih =>
      cases op with
      | start fn =>
          exact startRun_lg_cases fn env w (ih.imp id Or.inl)
      | rot =>
          show ((startRun true env w).1).lg = pathF1 ∨ ((startRun true env w).1).lg = pathF2
          exact startRun_lg_cases true env w (ih.imp id Or.inl)
      | appR m =>
          rcases ih with h1 | h1
          · rw [show applyOp (Op.appR m) env w = (appendToRun m env w).1 from rfl,
              appendToRun_lg_some env m w currentPath (by rw [h1]; rfl) (by decide)]
            exact Or.inl h1
          · rw [show applyOp (Op.appR m) env w = (appendToRun m env w).1 from rfl,
              appendToRun_lg_some env m w errorPath (by rw [h1]; rfl) (by decide)]
            exact Or.inr h1
      | appE m =>
          have hep : (w.lg.errorLogPath == "") = false := by
            rcases ih with h1 | h1 <;> rw [h1] <;> rfl
          rw [show applyOp (Op.appE m) env w = (appendToErrorLog m env w).1 from rfl,
            appendToErrorLog_lg env m w hep]
          exact ih

/-- C9: calling `appendToRun` on a fresh logger (no active run path)
over an empty directory in the failure-free environment implicitly
starts a run: afterwards the current file exists and holds exactly the
header line followed by the message line, and the active run path is
the current file. -/
theorem C9_lazy_start (ts : Nat → String) (m : String) (k t : Nat) (tr : List Event) :
    lookupFile ((appendToRun m (okEnv ts)
        { files := [], tick := k, time := t, trace := tr, lg := freshLogger }).1).files currentPath
      = some (runHeader (ts t) ++ (m ++ "\n")) ∧
    ((appendToRun m (okEnv ts)
        { files := [], tick := k, time := t, trace := tr, lg := freshLogger }).1).lg.runLogPath
      = some currentPath := ⟨rfl, rfl⟩

/-- C10 counterexample: a rotation in which every filesystem call
fails (the claim's "failed rotation") leaves the active run path set
to the error-log path, not null, refuting the claim that it is null
after a failed rotation. -/
theorem C10_run_path_cex :
    ((startRun false { fail := fun _ => true, now := fun _ => "T" }
        { files := [(currentPath, "C")], tick := 0, time := 0, trace := [],
          lg := lgInit (some currentPath) }).1).lg.runLogPath = some errorPath ∧
    ((startRun false { fail := fun _ => true, now := fun _ => "T" }
        { files := [(currentPath, "C")], tick := 0, time := 0, trace := [],
          lg := lgInit (some currentPath) }).1).lg.runLogPath ≠ none := by
  decide

/-- C10 amended: in every reachable state of the component the active
run path is the current run file path or the error-log path, never
null; the path is null only in a freshly constructed logger before
initialization. -/
theorem C10_run_path_amended (w : World) (h : Reachable w) :
    (w.lg.runLogPath = some currentPath ∨ w.lg.runLogPath = some errorPath) ∧
    freshLogger.runLogPath = none := by
  rcases reachable_lg w h with h1 | h1 <;> rw [h1] <;> exact ⟨by simp [pathF1, pathF2], rfl⟩

/-- C10 witness: the state reached by a plain `getInstance` bootstrap
on an empty directory. -/
theorem C10_run_path_witness :
    ((((getInstanceInit (okEnv fun _ => "T")
        { files := [], tick := 0, time := 0, trace := [], lg := freshLogger }).1).lg.runLogPath
          = some currentPath ∨
      ((getInstanceInit (okEnv fun _ => "T")
        { files := [], tick := 0, time := 0, trace := [], lg := freshLogger }).1).lg.runLogPath
          = some errorPath) ∧
     freshLogger.runLogPath = none) :=
  C10_run_path_amended _ (Reachable.init (okEnv fun _ => "T") [] 0 0 [])

theorem presFile_pure {α : Type} (p : String) (a : α) : presFile p (pure a : M α) :=
  fun _ _ => rfl

theorem presFile_bind {α β : Type} {p : String} {m : M α} {f : α → M β}
    (hm : presFile p m) (hf : ∀ a, presFile p (f a)) : presFile p (m >>= f) := by
  intro env w
  show lookupFile ((M.bind m f env w).1).files p = lookupFile w.files p
  unfold M.bind
  rcases hw : m env w with ⟨w', r⟩
  have h1 : lookupFile w'.files p = lookupFile w.files p := by
    have hh := hm env w
    rw [hw] at hh
    exact hh
  cases r with
  | ok a =>
      simp only []
      rw [← h1]
      exact hf a env w'
  | error e => exact h1

theorem presFile_tryCatch {α : Type} {p : String} {m h : M α}
    (hm : presFile p m) (hh : presFile p h) : presFile p (tryCatchMock m h) := by
  intro env w
  unfold tryCatchMock
  rcases hw : m env w with ⟨w', r⟩
  have h1 : lookupFile w'.files p = lookupFile w.files p := by
    have hq := hm env w
    rw [hw] at hq
    exact hq
  cases r with
  | ok a => exact h1
  | error e =>
      rw [← h1]
      exact hh env w'

theorem presFile_ite {α : Type} (p : String) (c : Prop) [Decidable c] {m1 m2 : M α}
    (h1 : presFile p m1) (h2 : presFile p m2) : presFile p (if c then m1 else m2) := by
  split
  · exact h1
  · exact h2

theorem presFile_fsExistsSync (p q : String) : presFile p (fsExistsSync q) := by
  intro env w
  unfold fsExistsSync record
  split <;> rfl

theorem presFile_fsMkdirSync (p q : String) : presFile p (fsMkdirSync q) := by
  intro env w
  unfold fsMkdirSync record
  split <;> rfl

theorem presFile_fsReadFileSync (p q : String) : presFile p (fsReadFileSync q) := by
  intro env w
  unfold fsReadFileSync record
  split
  · rfl
  · rcases lookupFile w.files q with _ | c <;> rfl

theorem presFile_fsUnlinkSync (p q : String) (h : p ≠ q) : presFile p (fsUnlinkSync q) := by
  intro env w
  unfold fsUnlinkSync record
  split
  · rfl
  · rcases lookupFile w.files q with _ | c
    · rfl
    · exact lookupFile_eraseFile_ne _ _ _ h

theorem presFile_fsRenameSync (p src dst : String) (h1 : p ≠ src) (h2 : p ≠ dst) :
    presFile p (fsRenameSync src dst) := by
  intro env w
  unfold fsRenameSync record
  split
  · rfl
  · rcases lookupFile w.files src with _ | c
    · rfl
    · rw [lookupFile_eraseFile_ne _ _ _ h1, lookupFile_setFile_ne _ _ _ _ h2]

theorem presFile_fsWriteFileSync (p q data : String) (h : p ≠ q) :
    presFile p (fsWriteFileSync q data) := by
  intro env w
  unfold fsWriteFileSync record
  split
  · rfl
  · exact lookupFile_setFile_ne _ _ _ _ h

theorem presFile_fsAppendFileSync (p q data : String) (h : p ≠ q) :
    presFile p (fsAppendFileSync q data) := by
  intro env w
  unfold fsAppendFileSync record
  split
  · rfl
  · exact lookupFile_setFile_ne _ _ _ _ h

theorem presFile_getLg (p : String) : presFile p getLg := fun _ _ => rfl

theorem presFile_modifyLg (p : String) (f : LoggerState → LoggerState) :
    presFile p (modifyLg f) := fun _ _ => rfl

theorem presFile_dateNow (p : String) : presFile p dateNow := fun _ _ => rfl

theorem presErr_movePrev1ToPrev2 : presFile errorPath (movePrev1ToPrev2 prev1Path prev2Path) := by
  unfold movePrev1ToPrev2
  refine presFile_tryCatch ?_ (presFile_tryCatch ?_ (presFile_pure _ ()))
  · refine presFile_bind (presFile_fsExistsSync _ _) (fun b => ?_)
    refine presFile_bind ?_ (fun _ => presFile_fsRenameSync _ _ _ (by decide) (by decide))
    apply presFile_ite
    · exact presFile_fsUnlinkSync _ _ (by decide)
    · exact presFile_pure _ ()
  · exact presFile_bind (presFile_fsReadFileSync _ _) (fun d =>
      presFile_bind (presFile_fsWriteFileSync _ _ _ (by decide)) (fun _ =>
        presFile_fsUnlinkSync _ _ (by decide)))

theorem presErr_moveCurrentToPrev1 :
    presFile errorPath (moveCurrentToPrev1 currentPath prev1Path) := by
  unfold moveCurrentToPrev1
  refine presFile_tryCatch ?_ (presFile_tryCatch ?_ (presFile_pure _ ()))
  · refine presFile_bind (presFile_fsExistsSync _ _) (fun b => ?_)
    refine presFile_bind ?_ (fun _ => presFile_fsRenameSync _ _ _ (by decide) (by decide))
    apply presFile_ite
    · exact presFile_fsUnlinkSync _ _ (by decide)
    · exact presFile_pure _ ()
  · exact presFile_bind (presFile_fsReadFileSync _ _) (fun d =>
      presFile_bind (presFile_fsWriteFileSync _ _ _ (by decide)) (fun _ =>
        presFile_fsUnlinkSync _ _ (by decide)))

theorem presErr_rotateIfNeeded (fn : Bool) :
    presFile errorPath (rotateIfNeeded currentPath prev1Path prev2Path fn) := by
  unfold rotateIfNeeded
  refine presFile_bind (presFile_fsExistsSync _ _) (fun b => ?_)
  apply presFile_ite
  · refine presFile_bind (presFile_fsExistsSync _ _) (fun b2 => ?_)
    refine presFile_bind ?_ (fun _ => presErr_moveCurrentToPrev1)
    apply presFile_ite
    · exact presErr_movePrev1ToPrev2
    · exact presFile_pure _ ()
  · exact presFile_pure _ ()

theorem presErr_writeHeader : presFile errorPath (writeHeader currentPath) := by
  unfold writeHeader
  refine presFile_tryCatch ?_ ?_
  · exact presFile_bind (presFile_dateNow _) (fun tt =>
      presFile_bind (presFile_fsWriteFileSync _ _ _ (by decide)) (fun _ =>
        presFile_pure _ true))
  · exact presFile_bind (presFile_modifyLg _ _) (fun _ => presFile_pure _ false)

theorem startRun_unfold (fn : Bool) (env : Env) (files : List (String × String)) (k t : Nat)
    (tr : List Event) (rp : Option String) (ep : String) :
    startRun fn env
        { files := files, tick := k, time := t, trace := tr,
          lg := { logDir := "logging", runLogPath := rp, errorLogPath := ep } } =
      tryCatchMock
        (rotateIfNeeded currentPath prev1Path prev2Path fn >>= fun _ =>
          writeHeader currentPath >>= fun ok =>
          if ok then modifyLg (fun s => { s with runLogPath := some currentPath }) else pure ())
        (modifyLg (fun s => { s with runLogPath := some s.errorLogPath }))
        env
        { files := files, tick := k, time := t, trace := tr,
          lg := { logDir := "logging", runLogPath := rp, errorLogPath := errorPath } } := rfl

theorem startRun_presErr (fn : Bool) (env : Env) (files : List (String × String)) (k t : Nat)
    (tr : List Event) (rp : Option String) (ep : String) :
    lookupFile ((startRun fn env
        { files := files, tick := k, time := t, trace := tr,
          lg := { logDir := "logging", runLogPath := rp, errorLogPath := ep } }).1).files
      errorPath = lookupFile files errorPath := by
  rw [startRun_unfold]
  have hp : presFile errorPath (tryCatchMock
      (rotateIfNeeded currentPath prev1Path prev2Path fn >>= fun _ =>
        writeHeader currentPath >>= fun ok =>
        if ok then modifyLg (fun s => { s with runLogPath := some currentPath }) else pure ())
      (modifyLg (fun s => { s with runLogPath := some s.errorLogPath }))) := by
    refine presFile_tryCatch ?_ (presFile_modifyLg _ _)
    refine presFile_bind (presErr_rotateIfNeeded fn) (fun _ => ?_)
    refine presFile_bind presErr_writeHeader (fun b => ?_)
    apply presFile_ite
    · exact presFile_modifyLg _ _
    · exact presFile_pure _ ()
  exact hp env _

theorem fsAppend_err_dichotomy (q data : String) (env : Env) (w : World) :
    lookupFile ((fsAppendFileSync q data env w).1).files errorPath = lookupFile w.files errorPath ∨
    lookupFile ((fsAppendFileSync q data env w).1).files errorPath
      = some ((lookupFile w.files errorPath).getD "" ++ data) := by
  unfold fsAppendFileSync record
  split
  · exact Or.inl rfl
  · by_cases hq : q = errorPath
    · subst hq
      right
      simp [lookupFile_setFile_self]
    · left
      simp [lookupFile_setFile_ne _ _ _ _ (fun hh => hq hh.symm)]

theorem startRun_err_general (fn : Bool) (env : Env) (w : World) (h : w.lg.logDir = "logging") :
    lookupFile ((startRun fn env w).1).files errorPath = lookupFile w.files errorPath ∧
    (((startRun fn env w).1).lg = pathF1 ∨ ((startRun fn env w).1).lg = pathF2) := by
  rcases w with ⟨f, k, t, tr, ⟨dir, rp, ep⟩⟩
  simp only at h
  subst h
  exact ⟨startRun_presErr fn env f k t tr rp ep,
    (startRun_char fn env f k t tr rp ep).imp And.left id⟩

theorem appendToErrorLog_eval (ts : Nat → String) (msg : String) (w : World)
    (h : w.lg.errorLogPath = errorPath) :
    appendToErrorLog msg (okEnv ts) w =
      ({ w with
          files := setFile w.files errorPath
            ((lookupFile w.files errorPath).getD "" ++ (msg ++ "\n")),
          tick := w.tick + 1, trace := w.trace ++ [Event.appendF errorPath] },
        Except.ok ()) := by
  simp [appendToErrorLog, tryCatchMock, bind_def, M.bind, getLg, h,
    fsAppendFileSync, record, okEnv, M.pure, pure_def, errorPath]

theorem appendToRun_err (env : Env) (msg : String) (files : List (String × String))
    (k t : Nat) (tr : List Event) (rp : Option String) :
    lookupFile ((appendToRun msg env
        { files := files, tick := k, time := t, trace := tr,
          lg := { logDir := "logging", runLogPath := rp, errorLogPath := errorPath } }).1).files
        errorPath
      = lookupFile files errorPath ∨
    ∃ s, lookupFile ((appendToRun msg env
        { files := files, tick := k, time := t, trace := tr,
          lg := { logDir := "logging", runLogPath := rp, errorLogPath := errorPath } }).1).files
        errorPath
      = some ((lookupFile files errorPath).getD "" ++ s) := by
  by_cases hrf : falsyOpt rp = true
  · simp only [appendToRun, tryCatchMock, bind_def, M.bind, getLg, hrf, if_true]
    have hgen := startRun_err_general false env
      { files := files, tick := k, time := t, trace := tr,
        lg := { logDir := "logging", runLogPath := rp, errorLogPath := errorPath } } rfl
    obtain ⟨herr, hlg⟩ := hgen
    rcases hs : startRun false env
        { files := files, tick := k, time := t, trace := tr,
          lg := { logDir := "logging", runLogPath := rp, errorLogPath := errorPath } }
      with ⟨w2, r2⟩
    rw [hs] at herr hlg
    simp only at herr hlg
    have hr2 : r2 = Except.ok () := by
      obtain ⟨a2, ha2⟩ := retOk_startRun false env
        { files := files, tick := k, time := t, trace := tr,
          lg := { logDir := "logging", runLogPath := rp, errorLogPath := errorPath } }
      rw [hs] at ha2
      cases a2
      exact ha2
    subst hr2
    rcases hlg with h2 | h2 <;> simp only [h2, pathF1, pathF2]
    · have hred : ((currentPath : String) == "") = false := by decide
      simp only [hred, Bool.false_eq_true, if_false]
      rcases ha : fsAppendFileSync currentPath (msg ++ "\n") env w2 with ⟨w3, r3⟩
      have hp3 : lookupFile w3.files errorPath = lookupFile w2.files errorPath := by
        have hpp := presFile_fsAppendFileSync errorPath currentPath (msg ++ "\n")
          (by decide) env w2
        rw [ha] at hpp
        exact hpp
      cases r3 <;> (left; exact hp3.trans herr)
    · have hred : ((errorPath : String) == "") = false := by decide
      simp only [hred, Bool.false_eq_true, if_false]
      rcases ha : fsAppendFileSync errorPath (msg ++ "\n") env w2 with ⟨w3, r3⟩
      have hd := fsAppend_err_dichotomy errorPath (msg ++ "\n") env w2
      rw [ha] at hd
      simp only at hd
      cases r3 <;> rcases hd with hd | hd
      · left; exact hd.trans herr
      · right; exact ⟨msg ++ "\n", by rw [show lookupFile w2.files errorPath
          = lookupFile files errorPath from herr] at hd; exact hd⟩
      · left; exact hd.trans herr
      · right; exact ⟨msg ++ "\n", by rw [show lookupFile w2.files errorPath
          = lookupFile files errorPath from herr] at hd; exact hd⟩
  · rcases rp with _ | p
    · simp [falsyOpt] at hrf
    · have hp : (p == "") = false := by
        simpa [falsyOpt] using hrf
      have hp2 : p ≠ "" := by simpa using hp
      simp only [appendToRun, tryCatchMock, bind_def, M.bind, getLg, falsyOpt, hp,
        Bool.false_eq_true, if_false, M.pure, pure_def, hp2, ite_false]
      rcases ha : fsAppendFileSync p (msg ++ "\n") env
          { files := files, tick := k, time := t, trace := tr,
            lg := { logDir := "logging", runLogPath := some p, errorLogPath := errorPath } }
        with ⟨w3, r3⟩
      have hd := fsAppend_err_dichotomy p (msg ++ "\n") env
        { files := files, tick := k, time := t, trace := tr,
          lg := { logDir := "logging", runLogPath := some p, errorLogPath := errorPath } }
      rw [ha] at hd
      simp only at hd
      cases r3 <;> rcases hd with hd | hd
      · left; exact hd
      · right; exact ⟨msg ++ "\n", hd⟩
      · left; exact hd
      · right; exact ⟨msg ++ "\n", hd⟩

theorem appendToErrorLog_err (env : Env) (msg : String) (files : List (String × String))
    (k t : Nat) (tr : List Event) (rp : Option String) :
    lookupFile ((appendToErrorLog msg env
        { files := files, tick := k, time := t, trace := tr,
          lg := { logDir := "logging", runLogPath := rp, errorLogPath := errorPath } }).1).files
        errorPath
      = lookupFile files errorPath ∨
    ∃ s, lookupFile ((appendToErrorLog msg env
        { files := files, tick := k, time := t, trace := tr,
          lg := { logDir := "logging", runLogPath := rp, errorLogPath := errorPath } }).1).files
        errorPath
      = some ((lookupFile files errorPath).getD "" ++ s) := by
  have hred : ((errorPath : String) == "") = false := by decide
  simp only [appendToErrorLog, tryCatchMock, bind_def, M.bind, getLg, hred,
    Bool.false_eq_true, if_false, M.pure, pure_def]
  rcases ha : fsAppendFileSync errorPath (msg ++ "\n") env
      { files := files, tick := k, time := t, trace := tr,
        lg := { logDir := "logging", runLogPath := rp, errorLogPath := errorPath } }
    with ⟨w3, r3⟩
  have hd := fsAppend_err_dichotomy errorPath (msg ++ "\n") env
    { files := files, tick := k, time := t, trace := tr,
      lg := { logDir := "logging", runLogPath := rp, errorLogPath := errorPath } }
  rw [ha] at hd
  simp only at hd
  cases r3 <;> rcases hd with hd | hd
  · left; exact hd
  · right; exact ⟨msg ++ "\n", hd⟩
  · left; exact hd
  · right; exact ⟨msg ++ "\n", hd⟩

theorem fold_startRun_presErr (envs : List Env) : ∀ (w : World),
    w.lg.logDir = "logging" → w.lg.errorLogPath = errorPath →
    lookupFile (envs.foldl (fun wa env => (startRun false env wa).1) w).files errorPath
      = lookupFile w.files errorPath ∧
    (envs.foldl (fun wa env => (startRun false env wa).1) w).lg.logDir = "logging" ∧
    (envs.foldl (fun wa env => (startRun false env wa).1) w).lg.errorLogPath = errorPath := by
  induction envs with
  | nil => exact fun w h1 h2 => ⟨rfl, h1, h2⟩
  | cons e es ih =>
      intro w h1 h2
      obtain ⟨he, hlg⟩ := startRun_err_general false e w h1
      have hld : ((startRun false e w).1).lg.logDir = "logging" := by
        rcases hlg with hf | hf <;> rw [hf] <;> rfl
      have hle : ((startRun false e w).1).lg.errorLogPath = errorPath := by
        rcases hlg with hf | hf <;> rw [hf] <;> rfl
      have hstep := ih ((startRun false e w).1) hld hle
      refine ⟨?_, hstep.2.1, hstep.2.2⟩
      calc lookupFile (es.foldl (fun wa env => (startRun false env wa).1)
              ((startRun false e w).1)).files errorPath
          = lookupFile ((startRun false e w).1).files errorPath := hstep.1
        _ = lookupFile w.files errorPath := he

theorem C8_part_e (ts : Nat → String) (m1 m2 : String) (envs : List Env)
    (files : List (String × String)) (k t : Nat) (tr : List Event) (rp : Option String) :
    lookupFile ((appendToErrorLog m2 (okEnv ts)
        (envs.foldl (fun wa env => (startRun false env wa).1)
          ((appendToErrorLog m1 (okEnv ts)
            { files := files, tick := k, time := t, trace := tr,
              lg := { logDir := "logging", runLogPath := rp,
                      errorLogPath := errorPath } }).1))).1).files errorPath
      = some (((lookupFile files errorPath).getD "" ++ (m1 ++ "\n")) ++ (m2 ++ "\n")) := by
  show lookupFile ((appendToErrorLog m2 (okEnv ts)
      (envs.foldl (fun wa env => (startRun false env wa).1)
        ({ files := setFile files errorPath
              ((lookupFile files errorPath).getD "" ++ (m1 ++ "\n")),
            tick := k + 1, time := t, trace := tr ++ [Event.appendF errorPath],
            lg := { logDir := "logging", runLogPath := rp,
                    errorLogPath := errorPath } } : World))).1).files errorPath
    = some (((lookupFile files errorPath).getD "" ++ (m1 ++ "\n")) ++ (m2 ++ "\n"))
  have hfold := fold_startRun_presErr envs
    ({ files := setFile files errorPath
          ((lookupFile files errorPath).getD "" ++ (m1 ++ "\n")),
        tick := k + 1, time := t, trace := tr ++ [Event.appendF errorPath],
        lg := { logDir := "logging", runLogPath := rp, errorLogPath := errorPath } } : World)
    rfl rfl
  obtain ⟨hferr, hfld, hfle⟩ := hfold
  have hmid : lookupFile (envs.foldl (fun wa env => (startRun false env wa).1)
      ({ files := setFile files errorPath
            ((lookupFile files errorPath).getD "" ++ (m1 ++ "\n")),
          tick := k + 1, time := t, trace := tr ++ [Event.appendF errorPath],
          lg := { logDir := "logging", runLogPath := rp,
                  errorLogPath := errorPath } } : World)).files errorPath
      = some ((lookupFile files errorPath).getD "" ++ (m1 ++ "\n")) := by
    rw [hferr]
    exact lookupFile_setFile_self _ _ _
  have h2 := appendToErrorLog_eval ts m2
    (envs.foldl (fun wa env => (startRun false env wa).1)
      ({ files := setFile files errorPath
            ((lookupFile files errorPath).getD "" ++ (m1 ++ "\n")),
          tick := k + 1, time := t, trace := tr ++ [Event.appendF errorPath],
          lg := { logDir := "logging", runLogPath := rp,
                  errorLogPath := errorPath } } : World))
    hfle
  rw [h2]
  simp only [lookupFile_setFile_self, hmid, Option.getD_some]

/-- C8: the error log is monotonically append-only. Under every
environment: `startRun` and `rotateRun` leave the contents of
`test_error.log` exactly unchanged (they never rotate, truncate,
rename or delete it); `appendToRun` and `appendToErrorLog` either
leave it unchanged or extend it at the end. Moreover, writing `m1` and
`m2` via `appendToErrorLog` with any number of `startRun` calls (under
arbitrary environments) interleaved leaves the error log holding its
old content followed by `m1`, a newline, `m2` and a newline — both
messages present, in call order, with nothing interspersed. -/
theorem C8_error_log_monotone (env : Env) (ts : Nat → String) (fn : Bool)
    (files : List (String × String)) (k t : Nat) (tr : List Event) (rp : Option String)
    (ep msg m1 m2 : String) (envs : List Env) :
    lookupFile ((startRun fn env
        { files := files, tick := k, time := t, trace := tr,
          lg := { logDir := "logging", runLogPath := rp, errorLogPath := ep } }).1).files
        errorPath = lookupFile files errorPath ∧
    lookupFile ((rotateRun env
        { files := files, tick := k, time := t, trace := tr,
          lg := { logDir := "logging", runLogPath := rp, errorLogPath := ep } }).1).files
        errorPath = lookupFile files errorPath ∧
    (lookupFile ((appendToRun msg env
        { files := files, tick := k, time := t, trace := tr,
          lg := { logDir := "logging", runLogPath := rp, errorLogPath := errorPath } }).1).files
        errorPath
      = lookupFile files errorPath ∨
     ∃ s, lookupFile ((appendToRun msg env
        { files := files, tick := k, time := t, trace := tr,
          lg := { logDir := "logging", runLogPath := rp, errorLogPath := errorPath } }).1).files
        errorPath
      = some ((lookupFile files errorPath).getD "" ++ s)) ∧
    (lookupFile ((appendToErrorLog msg env
        { files := files, tick := k, time := t, trace := tr,
          lg := { logDir := "logging", runLogPath := rp, errorLogPath := errorPath } }).1).files
        errorPath
      = lookupFile files errorPath ∨
     ∃ s, lookupFile ((appendToErrorLog msg env
        { files := files, tick := k, time := t, trace := tr,
          lg := { logDir := "logging", runLogPath := rp, errorLogPath := errorPath } }).1).files
        errorPath
      = some ((lookupFile files errorPath).getD "" ++ s)) ∧
    lookupFile ((appendToErrorLog m2 (okEnv ts)
        (envs.foldl (fun wa env2 => (startRun false env2 wa).1)
          ((appendToErrorLog m1 (okEnv ts)
            { files := files, tick := k, time := t, trace := tr,
              lg := { logDir := "logging", runLogPath := rp,
                      errorLogPath := errorPath } }).1))).1).files errorPath
      = some (((lookupFile files errorPath).getD "" ++ (m1 ++ "\n")) ++ (m2 ++ "\n")) :=
  ⟨startRun_presErr fn env files k t tr rp ep,
   startRun_presErr true env files k t tr rp ep,
   appendToRun_err env msg files k t tr rp,
   appendToErrorLog_err env msg files k t tr rp,
   C8_part_e ts m1 m2 envs files k t tr rp⟩

end RunLog
